import Mathlib

/-
Verification of the scene-loading core of the RAISE repository
(src/gs3dgs/scene/dataset_readers.py and src/gs2dgs/utils/camera_utils.py)
against its natural-language specification.

The Python code is shallowly embedded: machine floats become real numbers,
numpy matrices become Mathlib matrices (4x4 matrices are indexed by
Fin 3 ⊕ Fin 1 so that the 3x3 rotation block, the translation column and the
homogeneous row are the natural block decomposition), raising an exception
becomes returning Except.error, and the filesystem consulted through
os.path.exists / PlyData.read / PlyData.write becomes an explicit map from
paths to cached ply contents.  Collaborators that live outside src/
(the colmap binary parsers, PIL image opening, numpy random draws) become
parameters of the embedded functions.
-/

namespace RAISE

abbrev Vec3 := Fin 3 → ℝ
abbrev Mat3 := Matrix (Fin 3) (Fin 3) ℝ
abbrev Mat4 := Matrix (Fin 3 ⊕ Fin 1) (Fin 3 ⊕ Fin 1) ℝ

/-- Classification of the Python exceptions raised by the embedded code:
the AssertionError of dataset_readers.py:105, FileNotFoundError,
TypeError and IndexError. -/
inductive LoadErr where
  | unsupportedModel
  | fileNotFound
  | typeError
  | indexError
deriving DecidableEq, Repr

/-- Python os.path.join for a non-absolute second component. -/
def pyJoin (a b : String) : String := a ++ "/" ++ b

/-- Python os.path.basename: the part after the last slash, or the whole
string when it has no slash. -/
def pyBasename (s : String) : String :=
  String.mk ((s.toList.reverse.takeWhile (fun c => c ≠ '/')).reverse)

/-- Python s.rsplit(".", 1)[0]: everything before the last dot, or s itself
when there is no dot. -/
def beforeLastDot (s : String) : String :=
  if s.toList.contains '.' then
    String.mk (((s.toList.reverse.dropWhile (fun c => c ≠ '.')).drop 1).reverse)
  else s

/-- Python s.split(".")[0]: everything before the first dot. -/
def beforeFirstDot (s : String) : String :=
  String.mk (s.toList.takeWhile (fun c => c ≠ '.'))

/-- Python s.rsplit("/", 1)[1]: the part after the last slash; Python raises
IndexError when there is no slash, modelled as none. -/
def afterLastSlash (s : String) : Option String :=
  if s.toList.contains '/' then
    some (String.mk ((s.toList.reverse.takeWhile (fun c => c ≠ '/')).reverse))
  else none

/-- Python pathlib.Path(s).stem: the base name with its last extension
removed. -/
def pyStem (s : String) : String := beforeLastDot (pyBasename s)

/-- Python int() applied to a rational: truncation toward zero. -/
def pyTrunc (q : ℚ) : ℤ := q.num / q.den

/-- Python round() applied to a rational: round half to even. -/
def pyRound (q : ℚ) : ℤ :=
  let f := ⌊q⌋
  let r := q - f
  if r < 1/2 then f
  else if 1/2 < r then f + 1
  else if f % 2 = 0 then f else f + 1

/-- np.max over a list of reals; numpy raises on an empty array, which is
modelled as 0 (every use reached by the claims is on a non-empty list). -/
noncomputable def npMax : List ℝ → ℝ
  | [] => 0
  | x :: xs => xs.foldl max x

/-- np.min over a list of reals; numpy raises on an empty array, modelled
as 0. -/
noncomputable def npMin : List ℝ → ℝ
  | [] => 0
  | x :: xs => xs.foldl min x

/-- Euclidean norm of a 3-vector, as computed by np.linalg.norm. -/
noncomputable def npNorm (v : Vec3) : ℝ := Real.sqrt (∑ i, (v i) ^ 2)

/-- Modelled from the spec: focalToFov(focal, pixelExtent) =
2·atan(pixelExtent / (2·focal)) (spec section 4.1); the source function
focal2fov lives in gs3dgs/utils/graphics_utils.py, which is not under src/. -/
noncomputable def focal2fov (focal pixelExtent : ℝ) : ℝ :=
  2 * Real.arctan (pixelExtent / (2 * focal))

/-- Modelled from the spec: fovToFocal(fov, pixelExtent), the inverse map
pixelExtent / (2·tan(fov/2)) (spec section 4.1); the source function
fov2focal is not under src/. -/
noncomputable def fov2focal (fov pixelExtent : ℝ) : ℝ :=
  pixelExtent / (2 * Real.tan (fov / 2))

/-- Modelled from the spec: worldToView = [[R^T, -R^T·T],[0,1]] (spec
section 3); the source function getWorld2View2 lives in
gs3dgs/utils/graphics_utils.py, which is not under src/.  Scene
normalization calls it with the default translate and scale. -/
noncomputable def getWorld2View2 (R : Mat3) (T : Vec3) : Mat4 :=
  Matrix.fromBlocks R.transpose
    (Matrix.of fun i (_ : Fin 1) => -(R.transpose.mulVec T i)) 0 1

/-- Modelled from the spec: the spherical-harmonic-DC-to-RGB mapping (spec
section 4.5); gs3dgs/utils/sh_utils.py is not under src/ and the spec fixes
only that colors derive from the DC coefficient, so the standard
zeroth-order normalization constant is used.  No claim depends on this
formula. -/
noncomputable def SH2RGB (x : ℝ) : ℝ := 0.28209479177387814 * x + 0.5

/-- CameraInfo (dataset_readers.py:28-39). -/
structure CameraInfo where
  uid : ℕ
  R : Mat3
  T : Vec3
  FovY : ℝ
  FovX : ℝ
  depth_cam_path : Option String
  depth_est_path : Option String
  image_path : String
  image_name : String
  width : ℕ
  height : ℕ

/-- Result of getNerfppNorm: the dict with keys translate and radius
(dataset_readers.py:69). -/
structure NerfNorm where
  translate : Vec3
  radius : ℝ

/-- BasicPointCloud as produced by fetchPly (dataset_readers.py:142-148). -/
structure BasicPointCloud where
  points : List Vec3
  colors : List Vec3
  normals : Option (List Vec3)

/-- One vertex record of the cached .ply file: position and normal as
floats, colors as 8-bit unsigned integers (dataset_readers.py:150-154). -/
structure PlyVert where
  pos : Vec3
  normal : Vec3
  rgb : Fin 3 → ℤ

abbrev PlyFile := List PlyVert

/-- The filesystem as observed through os.path.exists and the ply
reader/writer: a map from path to cached ply content. -/
abbrev FS := String → Option PlyFile

/-- Parsed split yaml file with train and test image-name lists
(dataset_readers.py:195-197). -/
structure SplitSpec where
  train : List String
  test : List String

/-- SceneInfo (dataset_readers.py:41-46).  point_cloud is an Option because
fetchPly is modelled totally; every reachable success path yields some. -/
structure SceneInfo where
  point_cloud : Option BasicPointCloud
  train_cameras : List CameraInfo
  test_cameras : List CameraInfo
  nerf_normalization : NerfNorm
  ply_path : String

/-- Extrinsics record supplied by the external colmap parser
(read_extrinsics_binary/text): quaternion, translation, intrinsics key and
stored image name. -/
structure ColmapExtr where
  qvec : Fin 4 → ℝ
  tvec : Vec3
  camera_id : ℕ
  name : String

/-- Intrinsics record supplied by the external colmap parser; the params
array is modelled as a total index function. -/
structure ColmapIntr where
  id : ℕ
  model : String
  width : ℕ
  height : ℕ
  params : ℕ → ℝ

/-- Image-path probing of readColmapCameras (dataset_readers.py:110-114):
if the literal path is absent retry with .png replacing the extension, then
fail with FileNotFoundError. -/
def resolveColmapImagePath (xists : String → Bool) (image_path : String) :
    Except LoadErr String :=
  let p1 := if xists image_path then image_path else beforeLastDot image_path ++ ".png"
  if xists p1 then Except.ok p1 else Except.error LoadErr.fileNotFound

/-- Image-path probing of readCamerasFromTransforms
(dataset_readers.py:253-259): probe base+extension, else base+".png", then
fail with FileNotFoundError. -/
def resolveTransformsImagePath (xists : String → Bool) (cam_name extension : String) :
    Except LoadErr String :=
  let p1 := if xists (cam_name ++ extension) then cam_name ++ extension else cam_name ++ ".png"
  if xists p1 then Except.ok p1 else Except.error LoadErr.fileNotFound

/-- Loop body of readColmapCameras (dataset_readers.py:86-137) for one
extrinsics entry.  The quaternion-to-matrix conversion qvec2rotmat comes
from the external parser module and is passed as the parameter q2r. -/
noncomputable def readColmapCamera (q2r : (Fin 4 → ℝ) → Mat3) (xists : String → Bool)
    (images_folder : String) (cam_intrinsics : ℕ → ColmapIntr)
    (depth_cam_folder depth_est_folder : Option String) (extr : ColmapExtr) :
    Except LoadErr CameraInfo :=
  let intr := cam_intrinsics extr.camera_id
  let R := (q2r extr.qvec).transpose
  let T := extr.tvec
  let fovs :=
    if intr.model = "SIMPLE_PINHOLE" then
      Except.ok (focal2fov (intr.params 0) intr.height, focal2fov (intr.params 0) intr.width)
    else if intr.model = "PINHOLE" then
      Except.ok (focal2fov (intr.params 1) intr.height, focal2fov (intr.params 0) intr.width)
    else Except.error LoadErr.unsupportedModel
  match fovs with
  | Except.error e => Except.error e
  | Except.ok fovs =>
    let image_path0 := pyJoin images_folder (pyBasename extr.name)
    let image_name := beforeFirstDot (pyBasename image_path0)
    match resolveColmapImagePath xists image_path0 with
    | Except.error e => Except.error e
    | Except.ok image_path =>
      Except.ok {
        uid := intr.id, R := R, T := T, FovY := fovs.1, FovX := fovs.2,
        depth_cam_path := depth_cam_folder.map (fun f => pyJoin f image_name),
        depth_est_path := depth_est_folder.map (fun f => pyJoin f image_name),
        image_path := image_path, image_name := image_name,
        width := intr.width, height := intr.height }

/-- readColmapCameras (dataset_readers.py:72-139): one CameraInfo per
extrinsics entry in arrival order, aborting the whole read on the first
error. -/
noncomputable def readColmapCameras (q2r : (Fin 4 → ℝ) → Mat3) (xists : String → Bool)
    (images_folder : String) (cam_intrinsics : ℕ → ColmapIntr)
    (depth_cam_folder depth_est_folder : Option String) :
    List ColmapExtr → Except LoadErr (List CameraInfo)
  | [] => Except.ok []
  | e :: rest =>
    match readColmapCamera q2r xists images_folder cam_intrinsics
        depth_cam_folder depth_est_folder e with
    | Except.error err => Except.error err
    | Except.ok c =>
      match readColmapCameras q2r xists images_folder cam_intrinsics
          depth_cam_folder depth_est_folder rest with
      | Except.error err => Except.error err
      | Except.ok cs => Except.ok (c :: cs)

/-- One frame of the synthetic-renderer manifest
(dataset_readers.py:251-262). -/
structure TransformsFrame where
  file_path : String
  transform_matrix : Mat4

/-- Upper-left 3x3 block of a 4x4 matrix (numpy M[:3,:3]). -/
def block3 (M : Mat4) : Mat3 := Matrix.of fun i j => M (Sum.inl i) (Sum.inl j)

/-- Translation column of a 4x4 matrix (numpy M[:3,3]). -/
def col3 (M : Mat4) : Vec3 := fun i => M (Sum.inl i) (Sum.inr 0)

/-- OpenGL-to-COLMAP axis fix (dataset_readers.py:264-265): negate rows 0-2
of columns 1-2 of the camera-to-world matrix. -/
def openglAxisFix (isOpenGL : Bool) (c2w : Mat4) : Mat4 :=
  if isOpenGL then
    Matrix.of fun i j =>
      match i, j with
      | Sum.inl a, Sum.inl b =>
        if b = 1 ∨ b = 2 then -(c2w (Sum.inl a) (Sum.inl b)) else c2w (Sum.inl a) (Sum.inl b)
      | _, _ => c2w i j
  else c2w

/-- Loop body of readCamerasFromTransforms (dataset_readers.py:251-302) for
one frame.  PIL image opening is the external collaborator imgSize giving
pixel dimensions for a path; np.linalg.inv is the Mathlib matrix inverse
(numpy raises on singular input, which no claim reaches). -/
noncomputable def readTransformsCamera (xists : String → Bool) (imgSize : String → ℕ × ℕ)
    (path images_dir : String) (fovx : ℝ) (isOpenGL : Bool) (extension : String)
    (depth_cam_folder depth_est_folder : Option String)
    (idx : ℕ) (frame : TransformsFrame) : Except LoadErr CameraInfo :=
  match afterLastSlash frame.file_path with
  | none => Except.error LoadErr.indexError
  | some fname =>
    match resolveTransformsImagePath xists (pyJoin images_dir fname) extension with
    | Except.error e => Except.error e
    | Except.ok cam_name =>
      let c2w := openglAxisFix isOpenGL frame.transform_matrix
      let w2c := c2w⁻¹
      let R := (block3 w2c).transpose
      let T := col3 w2c
      let image_path := pyJoin path cam_name
      let image_name := pyStem cam_name
      let sz := imgSize image_path
      let fovy := focal2fov (fov2focal fovx sz.1) sz.2
      Except.ok {
        uid := idx, R := R, T := T, FovY := fovy, FovX := fovx,
        depth_cam_path := depth_cam_folder.map (fun f => pyJoin f image_name),
        depth_est_path := depth_est_folder.map (fun f => pyJoin f image_name),
        image_path := image_path, image_name := image_name,
        width := sz.1, height := sz.2 }

/-- readCamerasFromTransforms (dataset_readers.py:234-304): one CameraInfo
per manifest frame, uid the enumeration index, aborting on the first
error. -/
noncomputable def readCamerasFromTransforms (xists : String → Bool) (imgSize : String → ℕ × ℕ)
    (path images_dir : String) (fovx : ℝ) (isOpenGL : Bool) (extension : String)
    (depth_cam_folder depth_est_folder : Option String) :
    ℕ → List TransformsFrame → Except LoadErr (List CameraInfo)
  | _, [] => Except.ok []
  | idx, f :: rest =>
    match readTransformsCamera xists imgSize path images_dir fovx isOpenGL extension
        depth_cam_folder depth_est_folder idx f with
    | Except.error err => Except.error err
    | Except.ok c =>
      match readCamerasFromTransforms xists imgSize path images_dir fovx isOpenGL extension
          depth_cam_folder depth_est_folder (idx + 1) rest with
      | Except.error err => Except.error err
      | Except.ok cs => Except.ok (c :: cs)

/-- Camera world position: the translation column of the inverted
world-to-view matrix (dataset_readers.py:60-62). -/
noncomputable def camCenter (R : Mat3) (T : Vec3) : Vec3 :=
  col3 (getWorld2View2 R T)⁻¹

/-- Inner helper get_center_and_diag of getNerfppNorm
(dataset_readers.py:49-55): per-coordinate mean of the centers, then the
maximum distance from the mean. -/
noncomputable def get_center_and_diag (cam_centers : List Vec3) : Vec3 × ℝ :=
  let avg : Vec3 := fun i => (cam_centers.map (fun v => v i)).sum / cam_centers.length
  let dist := cam_centers.map (fun v => npNorm (fun i => v i - avg i))
  (avg, npMax dist)

/-- getNerfppNorm (dataset_readers.py:48-69). -/
noncomputable def getNerfppNorm (cam_info : List CameraInfo) : NerfNorm :=
  let cam_centers := cam_info.map (fun cam => camCenter cam.R cam.T)
  let cd := get_center_and_diag cam_centers
  { translate := fun i => -(cd.1 i), radius := cd.2 * 1.1 }

/-- Numpy cast of a float color channel to u1 storage: truncation toward
zero wrapped to 8 bits. -/
noncomputable def toU8 (x : ℝ) : ℤ := (if 0 ≤ x then ⌊x⌋ else -⌊-x⌋) % 256

/-- storePly (dataset_readers.py:150-165): writes position records with
zero normals and u1 colors at the given path. -/
noncomputable def storePly (fs : FS) (path : String) (xyz rgb : List Vec3) : FS :=
  fun p =>
    if p = path then
      some ((xyz.zip rgb).map (fun v =>
        { pos := v.1, normal := fun _ => 0, rgb := fun i => toU8 (v.2 i) }))
    else fs p

/-- fetchPly (dataset_readers.py:142-148): positions as stored, colors
divided by 255, normals dropped (the normals line is commented out in the
source). -/
noncomputable def fetchPly (fs : FS) (path : String) : Option BasicPointCloud :=
  (fs path).map (fun verts =>
    { points := verts.map (fun v => v.pos),
      colors := verts.map (fun v => fun i => (v.rgb i : ℝ) / 255),
      normals := none })

/-- Fetch-or-generate-and-cache step shared by the scene readers
(dataset_readers.py:217-224, 319-331, 376-388): if the cache file is absent,
persist the synthesized points, then always read back from the cache.
Returns the loaded cloud, the resulting filesystem, and whether a write
happened. -/
noncomputable def plyLoad (fs : FS) (path : String) (xyz rgb : List Vec3) :
    Option BasicPointCloud × FS × Bool :=
  let step := if (fs path).isNone then (storePly fs path xyz rgb, true) else (fs, false)
  (fetchPly step.1 path, step.1, step.2)

/-- Train/test filtering against the split lists (dataset_readers.py:198-199
and 399-400). -/
def splitByLists (cams : List CameraInfo) (sp : SplitSpec) :
    List CameraInfo × List CameraInfo :=
  (cams.filter (fun c => sp.train.contains c.image_name),
   cams.filter (fun c => sp.test.contains c.image_name))

/-- readColmapSceneInfo after the adapter call (dataset_readers.py:187-231):
sort by image name, apply the split (error when eval is requested and the
split file is absent, i.e. the parsed split is none), normalize from the
train set, and consult the point-cloud cache.  xyz/rgb stand for the output
of the external read_points3D_binary/text parsers. -/
noncomputable def colmapSceneFromCams (path : String) (cam_infos_unsorted : List CameraInfo)
    (eval : Bool) (split : Option SplitSpec) (xyz rgb : List Vec3) (fs : FS) :
    Except LoadErr (SceneInfo × FS) :=
  let cam_infos := cam_infos_unsorted.mergeSort (fun a b => decide (a.image_name ≤ b.image_name))
  let ttE :=
    if eval then
      match split with
      | none => Except.error LoadErr.fileNotFound
      | some sp => Except.ok (splitByLists cam_infos sp)
    else Except.ok (cam_infos, ([] : List CameraInfo))
  match ttE with
  | Except.error e => Except.error e
  | Except.ok tt =>
    let nn := getNerfppNorm tt.1
    let ply_path := pyJoin path "sparse/points3D.ply"
    let loaded := plyLoad fs ply_path xyz rgb
    Except.ok ({ point_cloud := loaded.1, train_cameras := tt.1, test_cameras := tt.2,
                 nerf_normalization := nn, ply_path := ply_path }, loaded.2.1)

/-- readColmapSceneInfo (dataset_readers.py:167-231): adapter call plus
assembly.  The binary/text extrinsics and intrinsics stores are parsed by
external collaborators supplying extrs and intrs. -/
noncomputable def readColmapSceneInfo (q2r : (Fin 4 → ℝ) → Mat3) (xists : String → Bool)
    (path : String) (images : Option String) (eval : Bool) (split : Option SplitSpec)
    (extrs : List ColmapExtr) (intrs : ℕ → ColmapIntr) (xyz rgb : List Vec3) (fs : FS) :
    Except LoadErr (SceneInfo × FS) :=
  let reading_dir := images.getD "images"
  let dcf := if xists (pyJoin path "depths_cam") then some (pyJoin path "depths_cam") else none
  let dce := if xists (pyJoin path "depths_est") then some (pyJoin path "depths_est") else none
  match readColmapCameras q2r xists (pyJoin path reading_dir) intrs dcf dce extrs with
  | Except.error e => Except.error e
  | Except.ok cam_infos_unsorted =>
    colmapSceneFromCams path cam_infos_unsorted eval split xyz rgb fs

/-- readNerfSyntheticInfo (dataset_readers.py:306-338).  The calls at lines
308 and 310 pass (path, "transforms_train.json", white_background)
positionally against the signature readCamerasFromTransforms(path,
images_dir, transformsfile, white_background, ...), leaving the required
parameter white_background unbound, so Python raises TypeError on every
call before reading any frame; the rest of the body is unreachable and the
load can never produce a SceneInfo. -/
def readNerfSyntheticInfo (path : String) (white_background eval : Bool) :
    Except LoadErr (SceneInfo × FS) :=
  Except.error LoadErr.typeError

/-- readToyDeskSceneInfo after the adapter call (dataset_readers.py:365-415):
normalization from ALL loaded cameras, camera-bounding-box random point
synthesis, cache consultation, and the split applied afterwards.  randPts
and shs stand for the np.random.random draws.  In the source a missing
split file raises only after the cache may have been written; the embedded
error path drops the written filesystem, which no claim observes. -/
noncomputable def toyDeskSceneFromCams (path : String) (cam_infos : List CameraInfo)
    (eval : Bool) (split : Option SplitSpec) (randPts shs : List Vec3) (fs : FS) :
    Except LoadErr (SceneInfo × FS) :=
  let nn := getNerfppNorm cam_infos
  let cMin : Vec3 := fun i => npMin (cam_infos.map (fun c => c.T i))
  let cMax : Vec3 := fun i => npMax (cam_infos.map (fun c => c.T i))
  let ccRadius := npNorm (fun i => cMax i - cMin i) / 2
  let ccCenter : Vec3 := fun i => (cMax i + cMin i) / 2
  let ply_path := pyJoin path "points3d.ply"
  let xyz := randPts.map (fun r => fun i => (r i - 0.5) * 4 * ccRadius + ccCenter i)
  let rgb := shs.map (fun s => fun i => SH2RGB (s i / 255) * 255)
  let loaded := plyLoad fs ply_path xyz rgb
  let ttE :=
    if eval then
      match split with
      | none => Except.error LoadErr.fileNotFound
      | some sp => Except.ok (splitByLists cam_infos sp)
    else Except.ok (cam_infos, ([] : List CameraInfo))
  match ttE with
  | Except.error e => Except.error e
  | Except.ok tt =>
    Except.ok ({ point_cloud := loaded.1, train_cameras := tt.1, test_cameras := tt.2,
                 nerf_normalization := nn, ply_path := ply_path }, loaded.2.1)

/-- Numpy assignment Rt[:3,:3] = B on a 4x4 matrix. -/
def set33block (M : Mat4) (B : Mat3) : Mat4 :=
  Matrix.of fun i j =>
    match i, j with
    | Sum.inl a, Sum.inl b => B a b
    | _, _ => M i j

/-- Numpy assignment Rt[:3,3] = v on a 4x4 matrix. -/
def setCol3 (M : Mat4) (v : Vec3) : Mat4 :=
  Matrix.of fun i j =>
    match i, j with
    | Sum.inl a, Sum.inr _ => v a
    | _, _ => M i j

/-- Numpy assignment Rt[3,3] = x on a 4x4 matrix. -/
def setCorner (M : Mat4) (x : ℝ) : Mat4 :=
  Matrix.of fun i j =>
    match i, j with
    | Sum.inr _, Sum.inr _ => x
    | _, _ => M i j

/-- The world-to-view matrix Rt composed from a stored camera record in
camera_to_JSON (camera_utils.py:70-73): start from zeros, write the
transposed rotation block, the translation column and the homogeneous 1. -/
def cameraToJSONRt (R : Mat3) (T : Vec3) : Mat4 :=
  setCorner (setCol3 (set33block 0 R.transpose) T) 1

/-- Resolution computation and warn-once behavior of loadCam
(camera_utils.py:23-44) on one call.  Inputs: args.resolution, the
resolution_scale, the original image size and the process-wide WARNED flag;
outputs the integer resolution pair, the new flag value, and whether the
oversized-image warning printed on this call. -/
def loadCamStep (args_resolution : ℤ) (resolution_scale : ℚ) (orig_w orig_h : ℕ)
    (warned : Bool) : (ℤ × ℤ) × Bool × Bool :=
  if args_resolution = 1 ∨ args_resolution = 2 ∨ args_resolution = 4 ∨ args_resolution = 8 then
    ((pyRound ((orig_w : ℚ) / (resolution_scale * (args_resolution : ℚ))),
      pyRound ((orig_h : ℚ) / (resolution_scale * (args_resolution : ℚ)))), warned, false)
  else
    let gdp : ℚ × Bool × Bool :=
      if args_resolution = -1 then
        if 1600 < orig_w then ((orig_w : ℚ) / 1600, true, !warned)
        else (1, warned, false)
      else ((orig_w : ℚ) / (args_resolution : ℚ), warned, false)
    let scale := gdp.1 * resolution_scale
    ((pyTrunc ((orig_w : ℚ) / scale), pyTrunc ((orig_h : ℚ) / scale)), gdp.2.1, gdp.2.2)

/-- A sequence of loadCam calls threading the process-wide WARNED flag
(camera_utils.py:21 and 61-65); returns how many times the oversized-image
warning printed and the final flag. -/
def runLoadCams : List (ℤ × ℚ × ℕ × ℕ) → Bool → ℕ × Bool
  | [], warned => (0, warned)
  | c :: rest, warned =>
    let r := loadCamStep c.1 c.2.1 c.2.2.1 c.2.2.2 warned
    let t := runLoadCams rest r.2.1
    ((if r.2.2 then 1 else 0) + t.1, t.2)


/-- Centroid of the camera world positions of a list of records, written
independently of getNerfppNorm for use in its specification. -/
noncomputable def centroidOf (cams : List CameraInfo) : Vec3 :=
  fun i => ((cams.map (fun cm => camCenter cm.R cm.T)).map (fun v => v i)).sum / cams.length

/-! Concrete inputs used by counterexamples and witnesses. -/

def e0cx : Vec3 := ![1, 0, 0]

/-- A camera record at the world origin, image name "a". -/
noncomputable def camA : CameraInfo :=
  { uid := 0, R := 1, T := fun _ => 0, FovY := 0, FovX := 0,
    depth_cam_path := none, depth_est_path := none,
    image_path := "a.png", image_name := "a", width := 1, height := 1 }

/-- A camera record at world position (2,0,0), image name "b". -/
noncomputable def camB : CameraInfo :=
  { uid := 1, R := 1, T := ![2, 0, 0], FovY := 0, FovX := 0,
    depth_cam_path := none, depth_est_path := none,
    image_path := "b.png", image_name := "b", width := 1, height := 1 }

/-- A filesystem holding an (empty) cached ply at the ToyDesk canonical
path under scene root "p". -/
noncomputable def fsToy : FS :=
  fun p => if p = pyJoin "p" "points3d.ply" then some [] else none

/-- A filesystem holding an (empty) cached ply at "c.ply". -/
noncomputable def fsC9 : FS :=
  fun p => if p = "c.ply" then some [] else none

/-- A colmap extrinsics entry referencing intrinsics key 0. -/
noncomputable def extrCx : ColmapExtr :=
  { qvec := fun _ => 0, tvec := fun _ => 0, camera_id := 0, name := "a.jpg" }

/-- A supported PINHOLE intrinsics record. -/
noncomputable def intrCx : ColmapIntr :=
  { id := 0, model := "PINHOLE", width := 800, height := 800, params := fun _ => 1 }

/-- An unsupported (radial) intrinsics record. -/
noncomputable def intrBad : ColmapIntr :=
  { id := 0, model := "SIMPLE_RADIAL", width := 800, height := 800, params := fun _ => 1 }

/-- A manifest frame with identity camera-to-world transform. -/
noncomputable def frameCx : TransformsFrame := { file_path := "d/r_0", transform_matrix := 1 }

/-- ToyDesk scene assembled from cameras "a","b" with the degenerate split
that lists "a" on both sides (all listed names match existing cameras). -/
noncomputable def c5res : Except LoadErr (SceneInfo × FS) :=
  toyDeskSceneFromCams "p" [camA, camB] true (some { train := ["a"], test := ["a"] }) [] [] fsToy

/-- Train-side image names of c5res. -/
noncomputable def c5trainNames : List String :=
  match c5res with
  | Except.ok x => x.1.train_cameras.map (fun c => c.image_name)
  | Except.error _ => []

/-- Test-side image names of c5res. -/
noncomputable def c5testNames : List String :=
  match c5res with
  | Except.ok x => x.1.test_cameras.map (fun c => c.image_name)
  | Except.error _ => []

/-- ToyDesk scene assembled from cameras "a","b" with the proper split
train=["a"], test=["b"]. -/
noncomputable def c1res : Except LoadErr (SceneInfo × FS) :=
  toyDeskSceneFromCams "p" [camA, camB] true (some { train := ["a"], test := ["b"] }) [] [] fsToy

/-- Normalization field of c1res. -/
noncomputable def c1norm : NerfNorm :=
  match c1res with
  | Except.ok x => x.1.nerf_normalization
  | Except.error _ => { translate := fun _ => 0, radius := 0 }

/-- Train cameras of c1res. -/
noncomputable def c1train : List CameraInfo :=
  match c1res with
  | Except.ok x => x.1.train_cameras
  | Except.error _ => []

/-! Helper lemmas. -/

lemma except_map_eq_map {α β ε : Type} (r : Except ε α) (f g : α → β)
    (h : ∀ a, r = Except.ok a → f a = g a) : r.map f = r.map g := by
  cases r with
  | error e => rfl
  | ok a => simp [Except.map, h a rfl]

lemma foldl_max_choice (xs : List ℝ) (x : ℝ) :
    xs.foldl max x = x ∨ xs.foldl max x ∈ xs := by
  induction xs generalizing x with
  | nil => exact Or.inl rfl
  | cons y ys ih =>
    rw [List.foldl_cons]
    rcases ih (max x y) with h | h
    · rcases max_choice x y with hc | hc
      · exact Or.inl (by rw [h, hc])
      · exact Or.inr (by rw [h, hc]; exact List.mem_cons_self y ys)
    · exact Or.inr (List.mem_cons_of_mem y h)

lemma init_le_foldl_max (xs : List ℝ) (x : ℝ) : x ≤ xs.foldl max x := by
  induction xs generalizing x with
  | nil => exact le_refl x
  | cons y ys ih =>
    rw [List.foldl_cons]
    exact le_trans (le_max_left x y) (ih (max x y))

lemma le_foldl_max (xs : List ℝ) (x a : ℝ) (h : a = x ∨ a ∈ xs) :
    a ≤ xs.foldl max x := by
  induction xs generalizing x with
  | nil =>
    rcases h with rfl | h
    · exact le_refl a
    · exact absurd h (List.not_mem_nil a)
  | cons y ys ih =>
    rw [List.foldl_cons]
    rcases h with rfl | hm
    · exact le_trans (le_max_left a y) (init_le_foldl_max ys (max a y))
    · rcases List.mem_cons.mp hm with rfl | hm2
      · exact le_trans (le_max_right x a) (init_le_foldl_max ys (max x a))
      · exact ih (max x y) (Or.inr hm2)

lemma npMax_mem (l : List ℝ) (h : l ≠ []) : npMax l ∈ l := by
  cases l with
  | nil => exact absurd rfl h
  | cons x xs =>
    rcases foldl_max_choice xs x with hc | hc
    · rw [npMax, hc]; exact List.mem_cons_self x xs
    · rw [npMax]; exact List.mem_cons_of_mem x hc

lemma le_npMax (l : List ℝ) (a : ℝ) (h : a ∈ l) : a ≤ npMax l := by
  cases l with
  | nil => exact absurd h (List.not_mem_nil a)
  | cons x xs =>
    rcases List.mem_cons.mp h with rfl | hm
    · exact le_foldl_max xs a a (Or.inl rfl)
    · exact le_foldl_max xs x a (Or.inr hm)

lemma npNorm_zero : npNorm (fun _ => 0) = 0 := by
  simp [npNorm]

lemma block3_one : block3 (1 : Mat4) = (1 : Mat3) := by
  ext i j
  by_cases h : i = j <;> simp [block3, Matrix.one_apply, h]

lemma mul_colVec (A : Mat3) (T : Vec3) :
    A * (Matrix.of fun i (_ : Fin 1) => T i) = Matrix.of fun i (_ : Fin 1) => A.mulVec T i := by
  ext i j
  rw [Matrix.mul_apply, Matrix.of_apply, Matrix.mulVec, Matrix.dotProduct]
  simp

lemma getWorld2View2_inv (R : Mat3) (T : Vec3) (h : R.transpose * R = 1) :
    (getWorld2View2 R T)⁻¹ = Matrix.fromBlocks R (Matrix.of fun i (_ : Fin 1) => T i) 0 1 := by
  apply Matrix.inv_eq_right_inv
  rw [getWorld2View2, Matrix.fromBlocks_multiply]
  have e11 : R.transpose * R +
      (Matrix.of fun i (_ : Fin 1) => -(R.transpose.mulVec T i)) * (0 : Matrix (Fin 1) (Fin 3) ℝ) =
      1 := by
    rw [Matrix.mul_zero, add_zero, h]
  have e12 : R.transpose * (Matrix.of fun i (_ : Fin 1) => T i) +
      (Matrix.of fun i (_ : Fin 1) => -(R.transpose.mulVec T i)) * (1 : Matrix (Fin 1) (Fin 1) ℝ) =
      0 := by
    rw [mul_colVec, Matrix.mul_one]
    ext i j
    simp
  have e21 : (0 : Matrix (Fin 1) (Fin 3) ℝ) * R +
      (1 : Matrix (Fin 1) (Fin 1) ℝ) * (0 : Matrix (Fin 1) (Fin 3) ℝ) = 0 := by
    simp
  have e22 : (0 : Matrix (Fin 1) (Fin 3) ℝ) * (Matrix.of fun i (_ : Fin 1) => T i) +
      (1 : Matrix (Fin 1) (Fin 1) ℝ) * 1 = 1 := by
    simp
  rw [e11, e12, e21, e22, Matrix.fromBlocks_one]

lemma camCenter_orth (R : Mat3) (T : Vec3) (h : R.transpose * R = 1) :
    camCenter R T = T := by
  funext i
  rw [camCenter, getWorld2View2_inv R T h, col3]
  simp [Matrix.fromBlocks_apply₁₂]

/-! Claim C8. -/

/-- Claim C8: for every camera entry in either adapter, when the file at
the resolved path is absent the loader retries the .png variant; a
FileNotFoundError is raised exactly when neither the original-extension
candidate nor the .png variant exists, and the entry resolves without error
whenever either exists. -/
theorem image_fallback_iff (xists : String → Bool) (p base ext : String) :
    (resolveColmapImagePath xists p = Except.error LoadErr.fileNotFound ↔
      xists p = false ∧ xists (beforeLastDot p ++ ".png") = false) ∧
    ((resolveColmapImagePath xists p).isOk = true ↔
      (xists p = true ∨ xists (beforeLastDot p ++ ".png") = true)) ∧
    (resolveTransformsImagePath xists base ext = Except.error LoadErr.fileNotFound ↔
      xists (base ++ ext) = false ∧ xists (base ++ ".png") = false) ∧
    ((resolveTransformsImagePath xists base ext).isOk = true ↔
      (xists (base ++ ext) = true ∨ xists (base ++ ".png") = true)) := by
  unfold resolveColmapImagePath resolveTransformsImagePath
  cases h1 : xists p <;> cases h2 : xists (beforeLastDot p ++ ".png") <;>
    cases h3 : xists (base ++ ext) <;> cases h4 : xists (base ++ ".png") <;>
      simp [h1, h2, h3, h4, Except.isOk, Except.toBool]

/-! Claim C10. -/

lemma loadCamStep_flag_from_true (a : ℤ) (s : ℚ) (w h : ℕ) :
    (loadCamStep a s w h true).2.1 = true ∧ (loadCamStep a s w h true).2.2 = false := by
  unfold loadCamStep
  split_ifs <;> simp

lemma loadCamStep_no_print_keeps_false (a : ℤ) (s : ℚ) (w h : ℕ)
    (hp : (loadCamStep a s w h false).2.2 = false) :
    (loadCamStep a s w h false).2.1 = false := by
  unfold loadCamStep at hp ⊢
  split_ifs at hp ⊢ <;> simp_all

lemma loadCamStep_print_sets_flag (a : ℤ) (s : ℚ) (w h : ℕ) (b : Bool)
    (hp : (loadCamStep a s w h b).2.2 = true) :
    (loadCamStep a s w h b).2.1 = true := by
  unfold loadCamStep at hp ⊢
  split_ifs at hp ⊢ <;> simp_all

lemma runLoadCams_true (calls : List (ℤ × ℚ × ℕ × ℕ)) :
    (runLoadCams calls true).1 = 0 := by
  induction calls with
  | nil => rfl
  | cons c rest ih =>
    rw [runLoadCams]
    rcases loadCamStep_flag_from_true c.1 c.2.1 c.2.2.1 c.2.2.2 with ⟨hflag, hprint⟩
    simp only [hflag, hprint, ih]
    simp

/-- Claim C10: across any sequence of loadCam calls starting from the
module-initialized WARNED = False, the oversized-image warning prints at
most once, however many calls satisfy the trigger; and the resolution a
call computes does not depend on whether the warning has fired. -/
theorem warn_once_and_resolution_independent (calls : List (ℤ × ℚ × ℕ × ℕ))
    (a : ℤ) (s : ℚ) (w h : ℕ) (b : Bool) :
    (runLoadCams calls false).1 ≤ 1 ∧
    (loadCamStep a s w h b).1 = (loadCamStep a s w h false).1 := by
  constructor
  · induction calls with
    | nil => simp [runLoadCams]
    | cons c rest ih =>
      rw [runLoadCams]
      cases hp : (loadCamStep c.1 c.2.1 c.2.2.1 c.2.2.2 false).2.2 with
      | true =>
        have hflag := loadCamStep_print_sets_flag c.1 c.2.1 c.2.2.1 c.2.2.2 false hp
        simp [hflag, hp, runLoadCams_true]
      | false =>
        have hflag := loadCamStep_no_print_keeps_false c.1 c.2.1 c.2.2.1 c.2.2.2 hp
        simp only [hflag, hp]
        simpa using ih
  · unfold loadCamStep
    split_ifs <;> rfl

/-! Claim C7. -/

/-- Claim C7 counterexample: for the stored record with R = I and
T = (1,0,0), the world-to-view matrix composed by camera_to_JSON differs
from the spec formula [[R^T, -R^T·T],[0,1]] — their (0,3) entries are
1 and -1. -/
theorem worldToView_translation_counterexample :
    cameraToJSONRt 1 e0cx ≠ getWorld2View2 1 e0cx := by
  intro h
  have h0 : cameraToJSONRt 1 e0cx (Sum.inl 0) (Sum.inr 0) =
      getWorld2View2 1 e0cx (Sum.inl 0) (Sum.inr 0) := by rw [h]
  rw [cameraToJSONRt, getWorld2View2] at h0
  simp [setCorner, setCol3, set33block, Matrix.fromBlocks_apply₁₂, e0cx] at h0
  norm_num at h0

/-- Claim C7 (amended): the world-to-view matrix composed from a stored
CameraRecord with rotation R and translation T equals [[R^T, T],[0,1]]:
the translation column holds T itself, not -R^T·T. -/
theorem cameraToJSONRt_blocks (R : Mat3) (T : Vec3) :
    cameraToJSONRt R T =
      Matrix.fromBlocks R.transpose (Matrix.of fun i (_ : Fin 1) => T i) 0 1 := by
  ext i j
  cases i with
  | inl a =>
    cases j with
    | inl b => simp [cameraToJSONRt, setCorner, setCol3, set33block]
    | inr b => simp [cameraToJSONRt, setCorner, setCol3, set33block, Matrix.fromBlocks_apply₁₂]
  | inr a =>
    cases j with
    | inl b => simp [cameraToJSONRt, setCorner, setCol3, set33block]
    | inr b =>
      simp [cameraToJSONRt, setCorner, setCol3, set33block, Matrix.fromBlocks_apply₂₂,
        Matrix.one_apply, Subsingleton.elim a b]


/-! Claims C2 and C3: field lemmas for the per-entry builders. -/

lemma focal2fov_fov2focal (f w : ℝ) (h0 : 0 < f) (h1 : f < Real.pi) (hw : 0 < w) :
    focal2fov (fov2focal f w) w = f := by
  have hpi : 0 < Real.pi := Real.pi_pos
  have ht : 0 < Real.tan (f / 2) :=
    Real.tan_pos_of_pos_of_lt_pi_div_two (by linarith) (by linarith)
  have hw2 : w ≠ 0 := ne_of_gt hw
  have ht2 : Real.tan (f / 2) ≠ 0 := ne_of_gt ht
  unfold focal2fov fov2focal
  have harg : w / (2 * (w / (2 * Real.tan (f / 2)))) = Real.tan (f / 2) := by
    field_simp
    ring
  rw [harg, Real.arctan_tan (by linarith) (by linarith)]
  ring

lemma readTransformsCamera_fields (xists : String → Bool) (imgSize : String → ℕ × ℕ)
    (p2 id2 : String) (fovx : ℝ) (gl : Bool) (ext : String) (dcf dce : Option String)
    (idx : ℕ) (frame : TransformsFrame) (rec : CameraInfo)
    (h : readTransformsCamera xists imgSize p2 id2 fovx gl ext dcf dce idx frame =
      Except.ok rec) :
    rec.FovX = fovx ∧
    rec.FovY = focal2fov (fov2focal fovx rec.width) rec.height ∧
    rec.R = (block3 (openglAxisFix gl frame.transform_matrix)⁻¹).transpose ∧
    rec.T = col3 (openglAxisFix gl frame.transform_matrix)⁻¹ := by
  unfold readTransformsCamera at h
  cases hfn : afterLastSlash frame.file_path with
  | none => rw [hfn] at h; exact absurd h (by simp)
  | some fname =>
    rw [hfn] at h
    cases hr : resolveTransformsImagePath xists (pyJoin id2 fname) ext with
    | error e => simp only [hr] at h; exact absurd h (by simp)
    | ok cam_name =>
      simp only [hr, Except.ok.injEq] at h
      subst h
      exact ⟨rfl, rfl, rfl, rfl⟩

lemma readColmapCamera_fields (q2r : (Fin 4 → ℝ) → Mat3) (xists : String → Bool)
    (folder : String) (intrs : ℕ → ColmapIntr) (dcf dce : Option String)
    (extr : ColmapExtr) (rec : CameraInfo)
    (h : readColmapCamera q2r xists folder intrs dcf dce extr = Except.ok rec) :
    rec.R = (q2r extr.qvec).transpose ∧ rec.T = extr.tvec := by
  unfold readColmapCamera at h
  simp only [] at h
  by_cases h1 : (intrs extr.camera_id).model = "SIMPLE_PINHOLE"
  · rw [if_pos h1] at h
    cases hr : resolveColmapImagePath xists (pyJoin folder (pyBasename extr.name)) with
    | error e => rw [hr] at h; simp at h
    | ok ip =>
      rw [hr] at h
      simp only [Except.ok.injEq] at h
      subst h
      exact ⟨rfl, rfl⟩
  · by_cases h2 : (intrs extr.camera_id).model = "PINHOLE"
    · rw [if_neg h1, if_pos h2] at h
      cases hr : resolveColmapImagePath xists (pyJoin folder (pyBasename extr.name)) with
      | error e => rw [hr] at h; simp at h
      | ok ip =>
        rw [hr] at h
        simp only [Except.ok.injEq] at h
        subst h
        exact ⟨rfl, rfl⟩
    · rw [if_neg h1, if_neg h2] at h
      simp at h

/-- Claim C2 (code bug): every call of readNerfSyntheticInfo raises
TypeError — the adapter calls at dataset_readers.py:308/310 leave the
required white_background parameter unbound — so no CameraRecord is ever
produced by a synthetic-renderer scene load.  The adapter itself, called
correctly, gives each record FovX = camera_angle_x and
FovY = focalToFov(fovToFocal(FovX, width), height), and the fov round trip
with equal pixel extents returns the input fov, so a square image would
yield FovY = FovX as the claim describes. -/
theorem nerfSynthetic_load_raises (path : String) (wb ev : Bool) (xists : String → Bool)
    (imgSize : String → ℕ × ℕ) (p2 id2 ext : String) (gl : Bool) (dcf dce : Option String)
    (idx : ℕ) (frame : TransformsFrame) (f w : ℝ)
    (h0 : 0 < f) (h1 : f < Real.pi) (hw : 0 < w) :
    readNerfSyntheticInfo path wb ev = Except.error LoadErr.typeError ∧
    ((readTransformsCamera xists imgSize p2 id2 f gl ext dcf dce idx frame).map
        (fun r => (r.FovX, r.FovY)) =
      (readTransformsCamera xists imgSize p2 id2 f gl ext dcf dce idx frame).map
        (fun r => (f, focal2fov (fov2focal f r.width) r.height))) ∧
    focal2fov (fov2focal f w) w = f := by
  refine ⟨rfl, ?_, focal2fov_fov2focal f w h0 h1 hw⟩
  apply except_map_eq_map
  intro a ha
  rcases readTransformsCamera_fields xists imgSize p2 id2 f gl ext dcf dce idx frame a ha with
    ⟨hx, hy, _, _⟩
  rw [hx, hy]

/-- Witness for nerfSynthetic_load_raises at the concrete manifest of the
claim: camera_angle_x = 0.6911 and an 800×800 image, where the fov round
trip returns 0.6911 exactly. -/
theorem nerfSynthetic_load_raises_witness :
    ((0 : ℝ) < 0.6911 ∧ (0.6911 : ℝ) < Real.pi ∧ (0 : ℝ) < 800) ∧
    (readNerfSyntheticInfo "scene" false true = Except.error LoadErr.typeError ∧
     ((readTransformsCamera (fun _ => true) (fun _ => (800, 800)) "scene" "images" 0.6911 true
          ".png" none none 0 frameCx).map (fun r => (r.FovX, r.FovY)) =
       (readTransformsCamera (fun _ => true) (fun _ => (800, 800)) "scene" "images" 0.6911 true
          ".png" none none 0 frameCx).map
         (fun r => (0.6911, focal2fov (fov2focal 0.6911 r.width) r.height))) ∧
     focal2fov (fov2focal (0.6911 : ℝ) 800) 800 = 0.6911) :=
  ⟨⟨by norm_num, by linarith [Real.pi_gt_three], by norm_num⟩,
   nerfSynthetic_load_raises "scene" false true (fun _ => true) (fun _ => (800, 800)) "scene"
     "images" ".png" true none none 0 frameCx 0.6911 800
     (by norm_num) (by linarith [Real.pi_gt_three]) (by norm_num)⟩

/-- Claim C3: for every raw pose accepted by either format adapter the
stored rotation equals the transpose of the raw world-to-camera rotation
and the stored translation equals the raw translation unchanged; when the
raw rotation is orthonormal the stored rotation satisfies
rotation · rotationᵀ = I.  (For the colmap adapter the raw rotation is
qvec2rotmat(qvec); for the transforms adapter it is the rotation block of
the inverted camera-to-world matrix.) -/
theorem stored_rotation_transpose (q2r : (Fin 4 → ℝ) → Mat3) (xists : String → Bool)
    (folder : String) (intrs : ℕ → ColmapIntr) (dcf dce : Option String) (extr : ColmapExtr)
    (imgSize : String → ℕ × ℕ) (p2 id2 ext : String) (f : ℝ) (gl : Bool) (idx : ℕ)
    (frame : TransformsFrame)
    (h1 : q2r extr.qvec * (q2r extr.qvec).transpose = 1)
    (h2 : block3 (openglAxisFix gl frame.transform_matrix)⁻¹ *
          (block3 (openglAxisFix gl frame.transform_matrix)⁻¹).transpose = 1) :
    ((readColmapCamera q2r xists folder intrs dcf dce extr).map (fun r => (r.R, r.T)) =
      (readColmapCamera q2r xists folder intrs dcf dce extr).map
        (fun _ => ((q2r extr.qvec).transpose, extr.tvec))) ∧
    ((readColmapCamera q2r xists folder intrs dcf dce extr).map
        (fun r => r.R * r.R.transpose) =
      (readColmapCamera q2r xists folder intrs dcf dce extr).map (fun _ => 1)) ∧
    ((readTransformsCamera xists imgSize p2 id2 f gl ext dcf dce idx frame).map
        (fun r => (r.R, r.T)) =
      (readTransformsCamera xists imgSize p2 id2 f gl ext dcf dce idx frame).map
        (fun _ => ((block3 (openglAxisFix gl frame.transform_matrix)⁻¹).transpose,
                   col3 (openglAxisFix gl frame.transform_matrix)⁻¹))) ∧
    ((readTransformsCamera xists imgSize p2 id2 f gl ext dcf dce idx frame).map
        (fun r => r.R * r.R.transpose) =
      (readTransformsCamera xists imgSize p2 id2 f gl ext dcf dce idx frame).map
        (fun _ => 1)) := by
  refine ⟨?_, ?_, ?_, ?_⟩
  · apply except_map_eq_map
    intro a ha
    rcases readColmapCamera_fields q2r xists folder intrs dcf dce extr a ha with ⟨hR, hT⟩
    rw [hR, hT]
  · apply except_map_eq_map
    intro a ha
    rcases readColmapCamera_fields q2r xists folder intrs dcf dce extr a ha with ⟨hR, _⟩
    rw [hR, Matrix.transpose_transpose]
    exact Matrix.mul_eq_one_comm.mp h1
  · apply except_map_eq_map
    intro a ha
    rcases readTransformsCamera_fields xists imgSize p2 id2 f gl ext dcf dce idx frame a ha with
      ⟨_, _, hR, hT⟩
    rw [hR, hT]
  · apply except_map_eq_map
    intro a ha
    rcases readTransformsCamera_fields xists imgSize p2 id2 f gl ext dcf dce idx frame a ha with
      ⟨_, _, hR, _⟩
    rw [hR, Matrix.transpose_transpose]
    exact Matrix.mul_eq_one_comm.mp h2

/-- Witness for stored_rotation_transpose with identity raw rotations: the
constant identity qvec2rotmat for the colmap entry and the identity
camera-to-world matrix for the manifest frame. -/
theorem stored_rotation_transpose_witness :
    ((fun _ => (1 : Mat3)) extrCx.qvec * ((fun _ => (1 : Mat3)) extrCx.qvec).transpose = 1 ∧
     block3 (openglAxisFix false frameCx.transform_matrix)⁻¹ *
       (block3 (openglAxisFix false frameCx.transform_matrix)⁻¹).transpose = 1) ∧
    (((readColmapCamera (fun _ => 1) (fun _ => true) "f" (fun _ => intrCx) none none extrCx).map
        (fun r => (r.R, r.T)) =
      (readColmapCamera (fun _ => 1) (fun _ => true) "f" (fun _ => intrCx) none none extrCx).map
        (fun _ => (((fun _ => (1 : Mat3)) extrCx.qvec).transpose, extrCx.tvec))) ∧
    ((readColmapCamera (fun _ => 1) (fun _ => true) "f" (fun _ => intrCx) none none extrCx).map
        (fun r => r.R * r.R.transpose) =
      (readColmapCamera (fun _ => 1) (fun _ => true) "f" (fun _ => intrCx) none none extrCx).map
        (fun _ => 1)) ∧
    ((readTransformsCamera (fun _ => true) (fun _ => (800, 800)) "p" "d" 1 false ".png" none none
        0 frameCx).map (fun r => (r.R, r.T)) =
      (readTransformsCamera (fun _ => true) (fun _ => (800, 800)) "p" "d" 1 false ".png" none none
        0 frameCx).map
        (fun _ => ((block3 (openglAxisFix false frameCx.transform_matrix)⁻¹).transpose,
                   col3 (openglAxisFix false frameCx.transform_matrix)⁻¹))) ∧
    ((readTransformsCamera (fun _ => true) (fun _ => (800, 800)) "p" "d" 1 false ".png" none none
        0 frameCx).map (fun r => r.R * r.R.transpose) =
      (readTransformsCamera (fun _ => true) (fun _ => (800, 800)) "p" "d" 1 false ".png" none none
        0 frameCx).map (fun _ => 1))) :=
  ⟨⟨by simp, by simp [openglAxisFix, frameCx, block3_one]⟩,
   stored_rotation_transpose (fun _ => 1) (fun _ => true) "f" (fun _ => intrCx) none none extrCx
     (fun _ => (800, 800)) "p" "d" ".png" 1 false 0 frameCx
     (by simp) (by simp [openglAxisFix, frameCx, block3_one])⟩


/-! Claim C4. -/

lemma getNerfppNorm_unfold (cams : List CameraInfo) :
    getNerfppNorm cams =
      { translate := fun i => -(centroidOf cams i),
        radius := npMax ((cams.map (fun cm => camCenter cm.R cm.T)).map
          (fun v => npNorm (fun j => v j - centroidOf cams j))) * 1.1 } := by
  simp only [getNerfppNorm, get_center_and_diag, centroidOf, List.length_map]

/-- Claim C4: for every non-empty camera list, getNerfppNorm returns
translate equal to the negated centroid of the camera world positions
(each recovered as the translation column of the inverted world-to-view
matrix) and radius equal to 1.1 times the maximum distance from the
centroid to a camera position (the maximum is attained and dominates); and
for a single camera with orthonormal rotation at position p = T it returns
translate = -p and radius = 0. -/
theorem getNerfppNorm_correct (cams : List CameraInfo) (c : CameraInfo)
    (hne : cams ≠ []) (horth : c.R.transpose * c.R = 1) :
    (getNerfppNorm cams).translate = (fun i => -(centroidOf cams i)) ∧
    (∃ v ∈ cams.map (fun cm => camCenter cm.R cm.T),
      (getNerfppNorm cams).radius = npNorm (fun j => v j - centroidOf cams j) * 1.1) ∧
    (∀ v ∈ cams.map (fun cm => camCenter cm.R cm.T),
      npNorm (fun j => v j - centroidOf cams j) * 1.1 ≤ (getNerfppNorm cams).radius) ∧
    (getNerfppNorm [c]).translate = (fun i => -(c.T i)) ∧
    (getNerfppNorm [c]).radius = 0 := by
  have hcc : camCenter c.R c.T = c.T := camCenter_orth c.R c.T horth
  refine ⟨?_, ?_, ?_, ?_, ?_⟩
  · rw [getNerfppNorm_unfold]
  · rw [getNerfppNorm_unfold]
    have hne2 : (cams.map (fun cm => camCenter cm.R cm.T)).map
        (fun v => npNorm (fun j => v j - centroidOf cams j)) ≠ [] := by
      simp [hne]
    have hmem := npMax_mem _ hne2
    rcases List.mem_map.mp hmem with ⟨v, hv, hveq⟩
    exact ⟨v, hv, by rw [← hveq]⟩
  · intro v hv
    rw [getNerfppNorm_unfold]
    have hmem : npNorm (fun j => v j - centroidOf cams j) ∈
        (cams.map (fun cm => camCenter cm.R cm.T)).map
          (fun w => npNorm (fun j => w j - centroidOf cams j)) :=
      List.mem_map_of_mem _ hv
    have := le_npMax _ _ hmem
    have h11 : (0 : ℝ) ≤ 1.1 := by norm_num
    exact mul_le_mul_of_nonneg_right this h11
  · rw [getNerfppNorm_unfold]
    funext i
    simp [centroidOf, hcc]
  · rw [getNerfppNorm_unfold]
    have hcent : centroidOf [c] = c.T := by
      funext i
      simp [centroidOf, hcc]
    rw [hcent]
    simp [hcc, npNorm_zero, npMax, sub_self]

/-- Witness for getNerfppNorm_correct: the single camera camA at the
origin with identity rotation. -/
theorem getNerfppNorm_correct_witness :
    (([camA] : List CameraInfo) ≠ [] ∧ camA.R.transpose * camA.R = 1) ∧
    ((getNerfppNorm [camA]).translate = (fun i => -(centroidOf [camA] i)) ∧
    (∃ v ∈ ([camA] : List CameraInfo).map (fun cm => camCenter cm.R cm.T),
      (getNerfppNorm [camA]).radius = npNorm (fun j => v j - centroidOf [camA] j) * 1.1) ∧
    (∀ v ∈ ([camA] : List CameraInfo).map (fun cm => camCenter cm.R cm.T),
      npNorm (fun j => v j - centroidOf [camA] j) * 1.1 ≤ (getNerfppNorm [camA]).radius) ∧
    (getNerfppNorm [camA]).translate = (fun i => -(camA.T i)) ∧
    (getNerfppNorm [camA]).radius = 0) :=
  ⟨⟨by simp, by simp [camA]⟩,
   getNerfppNorm_correct [camA] camA (by simp) (by simp [camA])⟩


/-! Claims C1, C5, C9: inversion lemmas for the scene assemblers. -/

lemma colmapSceneFromCams_ok (path : String) (cams : List CameraInfo) (ev : Bool)
    (sp : Option SplitSpec) (xyz rgb : List Vec3) (fs : FS) (p : SceneInfo × FS)
    (h : colmapSceneFromCams path cams ev sp xyz rgb fs = Except.ok p) :
    ∃ tt : List CameraInfo × List CameraInfo,
      (ev = true → ∃ spv, sp = some spv ∧
        tt = splitByLists (cams.mergeSort (fun a b => decide (a.image_name ≤ b.image_name))) spv) ∧
      (ev = false →
        tt = (cams.mergeSort (fun a b => decide (a.image_name ≤ b.image_name)), [])) ∧
      p = ({ point_cloud := (plyLoad fs (pyJoin path "sparse/points3D.ply") xyz rgb).1,
             train_cameras := tt.1, test_cameras := tt.2,
             nerf_normalization := getNerfppNorm tt.1,
             ply_path := pyJoin path "sparse/points3D.ply" },
           (plyLoad fs (pyJoin path "sparse/points3D.ply") xyz rgb).2.1) := by
  unfold colmapSceneFromCams at h
  simp only [] at h
  cases ev with
  | true =>
    cases sp with
    | none => simp at h
    | some spv =>
      simp only [if_pos, Except.ok.injEq] at h
      refine ⟨splitByLists (cams.mergeSort (fun a b => decide (a.image_name ≤ b.image_name))) spv,
        fun _ => ⟨spv, rfl, rfl⟩, fun hf => by simp at hf, ?_⟩
      exact h.symm
  | false =>
    simp only [Bool.false_eq_true, if_false, Except.ok.injEq] at h
    refine ⟨(cams.mergeSort (fun a b => decide (a.image_name ≤ b.image_name)), []),
      fun ht => by simp at ht, fun _ => rfl, ?_⟩
    exact h.symm

lemma toyDeskSceneFromCams_ok (path : String) (cams : List CameraInfo) (ev : Bool)
    (sp : Option SplitSpec) (randPts shs : List Vec3) (fs : FS) (p : SceneInfo × FS)
    (h : toyDeskSceneFromCams path cams ev sp randPts shs fs = Except.ok p) :
    ∃ tt : List CameraInfo × List CameraInfo,
      (ev = true → ∃ spv, sp = some spv ∧ tt = splitByLists cams spv) ∧
      (ev = false → tt = (cams, [])) ∧
      p.1.train_cameras = tt.1 ∧ p.1.test_cameras = tt.2 ∧
      p.1.nerf_normalization = getNerfppNorm cams := by
  unfold toyDeskSceneFromCams at h
  simp only [] at h
  cases ev with
  | true =>
    cases sp with
    | none => simp at h
    | some spv =>
      simp only [if_pos, Except.ok.injEq] at h
      subst h
      exact ⟨splitByLists cams spv, fun _ => ⟨spv, rfl, rfl⟩, fun hf => by simp at hf,
        rfl, rfl, rfl⟩
  | false =>
    simp only [Bool.false_eq_true, if_false, Except.ok.injEq] at h
    subst h
    exact ⟨(cams, []), fun ht => by simp at ht, fun _ => rfl, rfl, rfl, rfl⟩

/-- Claim C1 (amended): the Colmap loader computes the normalization from
the train-set cameras only, but the ToyDesk loader computes it from ALL
loaded cameras (dataset_readers.py:365, before the split at 390-400), so
there the test cameras do influence the translate/radius result whenever
an evaluation split separates them from the train set.  (The Blender
loader never completes a load; see claim C2.) -/
theorem normalization_source_per_loader (path : String) (cams : List CameraInfo) (ev : Bool)
    (sp : Option SplitSpec) (xyz rgb : List Vec3) (fs : FS)
    (p2 : String) (cams2 : List CameraInfo) (ev2 : Bool) (sp2 : Option SplitSpec)
    (rp shs : List Vec3) (fs2 : FS) :
    ((colmapSceneFromCams path cams ev sp xyz rgb fs).map (fun x => x.1.nerf_normalization) =
      (colmapSceneFromCams path cams ev sp xyz rgb fs).map
        (fun x => getNerfppNorm x.1.train_cameras)) ∧
    ((toyDeskSceneFromCams p2 cams2 ev2 sp2 rp shs fs2).map (fun x => x.1.nerf_normalization) =
      (toyDeskSceneFromCams p2 cams2 ev2 sp2 rp shs fs2).map (fun _ => getNerfppNorm cams2)) := by
  constructor
  · apply except_map_eq_map
    intro a ha
    rcases colmapSceneFromCams_ok path cams ev sp xyz rgb fs a ha with ⟨tt, _, _, hp⟩
    subst hp
    rfl
  · apply except_map_eq_map
    intro a ha
    rcases toyDeskSceneFromCams_ok p2 cams2 ev2 sp2 rp shs fs2 a ha with ⟨tt, _, _, _, _, hn⟩
    exact hn

lemma c1norm_eval : c1norm = getNerfppNorm [camA, camB] := by
  simp [c1norm, c1res, toyDeskSceneFromCams, splitByLists, plyLoad, fetchPly, fsToy]

lemma c1train_eval : c1train = [camA] := by
  simp [c1train, c1res, toyDeskSceneFromCams, splitByLists, plyLoad, fetchPly, fsToy, camA, camB]

/-- Claim C1 counterexample: a ToyDesk load of two cameras at world
positions 0 and (2,0,0) split into train = {"a"}, test = {"b"} stores a
normalization (translate x-component -1) different from the one computed
from its own train set (translate x-component 0): the test camera did
influence the result. -/
theorem toyDesk_norm_uses_test_cameras : c1norm ≠ getNerfppNorm c1train := by
  rw [c1norm_eval, c1train_eval]
  intro h
  have h0 : (getNerfppNorm [camA, camB]).translate 0 = (getNerfppNorm [camA]).translate 0 := by
    rw [h]
  rw [getNerfppNorm_unfold, getNerfppNorm_unfold] at h0
  have hA : camCenter (1 : Mat3) (fun _ => 0) = (fun _ => 0) := camCenter_orth _ _ (by simp)
  have hB : camCenter (1 : Mat3) ![2, 0, 0] = ![2, 0, 0] := camCenter_orth _ _ (by simp)
  simp [centroidOf, camA, camB, hA, hB] at h0


/-! Claim C5. -/

lemma filter_partition_length (l : List CameraInfo) (tr te : List String)
    (h : ∀ c ∈ l, (tr.contains c.image_name = true ∧ te.contains c.image_name = false) ∨
                  (tr.contains c.image_name = false ∧ te.contains c.image_name = true)) :
    (l.filter (fun c => tr.contains c.image_name)).length +
      (l.filter (fun c => te.contains c.image_name)).length = l.length := by
  induction l with
  | nil => simp
  | cons c cs ih =>
    have hrest : ∀ x ∈ cs,
        (tr.contains x.image_name = true ∧ te.contains x.image_name = false) ∨
        (tr.contains x.image_name = false ∧ te.contains x.image_name = true) :=
      fun x hx => h x (List.mem_cons_of_mem c hx)
    have hih := ih hrest
    rcases h c (List.mem_cons_self c cs) with ⟨h1, h2⟩ | ⟨h1, h2⟩ <;>
      simp only [List.filter_cons, h1, h2, eq_self_iff_true, if_true, Bool.false_eq_true,
        if_false, List.length_cons] <;> omega

lemma filter_partition_disjoint (l : List CameraInfo) (tr te : List String)
    (h : ∀ c ∈ l, (tr.contains c.image_name = true ∧ te.contains c.image_name = false) ∨
                  (tr.contains c.image_name = false ∧ te.contains c.image_name = true)) :
    ((l.filter (fun c => tr.contains c.image_name)).any (fun c =>
      (l.filter (fun c2 => te.contains c2.image_name)).any
        (fun d => d.image_name == c.image_name))) = false := by
  rw [List.any_eq_false]
  intro c hc hany
  rcases List.any_eq_true.mp hany with ⟨d, hd, hbeq⟩
  rcases List.mem_filter.mp hc with ⟨hcl, hctr⟩
  rcases List.mem_filter.mp hd with ⟨hdl, hdte⟩
  have hnames : d.image_name = c.image_name := eq_of_beq hbeq
  rcases h c hcl with ⟨h1, h2⟩ | ⟨h1, h2⟩
  · rw [hnames] at hdte
    rw [hdte] at h2
    exact absurd h2 (by decide)
  · rw [h1] at hctr
    exact absurd hctr (by decide)

/-- Claim C5 (amended): whenever an evaluation split is supplied and every
loaded camera's imageName occurs in exactly one of the two lists (listed
names matching no camera are harmless), the assembled scene satisfies
len(trainCameras) + len(testCameras) = number of loaded cameras and no
imageName occurs in both sides; proved for the Colmap and ToyDesk
assemblers.  (The claim's original hypothesis — every listed name matches
an existing camera — does not forbid a camera missing from both lists or a
name listed on both sides; see the counterexample.) -/
theorem split_partition_amended (path : String) (cams cams2 : List CameraInfo)
    (sp sp2 : SplitSpec) (xyz rgb rp shs : List Vec3) (fs fs2 : FS) (p2 : String)
    (h : ∀ c ∈ cams,
      (sp.train.contains c.image_name = true ∧ sp.test.contains c.image_name = false) ∨
      (sp.train.contains c.image_name = false ∧ sp.test.contains c.image_name = true))
    (h2 : ∀ c ∈ cams2,
      (sp2.train.contains c.image_name = true ∧ sp2.test.contains c.image_name = false) ∨
      (sp2.train.contains c.image_name = false ∧ sp2.test.contains c.image_name = true)) :
    ((colmapSceneFromCams path cams true (some sp) xyz rgb fs).map
        (fun x => (x.1.train_cameras.length + x.1.test_cameras.length,
          x.1.train_cameras.any (fun c => x.1.test_cameras.any
            (fun d => d.image_name == c.image_name)))) =
      (colmapSceneFromCams path cams true (some sp) xyz rgb fs).map
        (fun _ => (cams.length, false))) ∧
    ((toyDeskSceneFromCams p2 cams2 true (some sp2) rp shs fs2).map
        (fun x => (x.1.train_cameras.length + x.1.test_cameras.length,
          x.1.train_cameras.any (fun c => x.1.test_cameras.any
            (fun d => d.image_name == c.image_name)))) =
      (toyDeskSceneFromCams p2 cams2 true (some sp2) rp shs fs2).map
        (fun _ => (cams2.length, false))) := by
  constructor
  · apply except_map_eq_map
    intro a ha
    rcases colmapSceneFromCams_ok path cams true (some sp) xyz rgb fs a ha with
      ⟨tt, htt, _, hp⟩
    rcases htt rfl with ⟨spv, hsp, httv⟩
    have hspv : spv = sp := by
      injection hsp.symm
    rw [hspv] at httv
    subst hp
    subst httv
    have hsorted : ∀ c ∈ cams.mergeSort (fun a b => decide (a.image_name ≤ b.image_name)),
        (sp.train.contains c.image_name = true ∧ sp.test.contains c.image_name = false) ∨
        (sp.train.contains c.image_name = false ∧ sp.test.contains c.image_name = true) :=
      fun c hc => h c ((List.mergeSort_perm cams
        (fun a b => decide (a.image_name ≤ b.image_name))).mem_iff.mp hc)
    have hlen := filter_partition_length _ sp.train sp.test hsorted
    have hdis := filter_partition_disjoint _ sp.train sp.test hsorted
    simp only [splitByLists]
    rw [Prod.mk.injEq]
    constructor
    · rw [hlen, List.length_mergeSort]
    · exact hdis
  · apply except_map_eq_map
    intro a ha
    rcases toyDeskSceneFromCams_ok p2 cams2 true (some sp2) rp shs fs2 a ha with
      ⟨tt, htt, _, htr, hte, _⟩
    rcases htt rfl with ⟨spv, hsp, httv⟩
    have hspv : spv = sp2 := by
      injection hsp.symm
    rw [hspv] at httv
    subst httv
    have hlen := filter_partition_length cams2 sp2.train sp2.test h2
    have hdis := filter_partition_disjoint cams2 sp2.train sp2.test h2
    rw [htr, hte]
    simp only [splitByLists]
    rw [Prod.mk.injEq]
    exact ⟨hlen, hdis⟩

/-- Witness for split_partition_amended: cameras "a","b" with the proper
split train = ["a"], test = ["b"] on both assemblers. -/
theorem split_partition_amended_witness :
    ((∀ c ∈ ([camA, camB] : List CameraInfo),
      ((["a"] : List String).contains c.image_name = true ∧
        (["b"] : List String).contains c.image_name = false) ∨
      ((["a"] : List String).contains c.image_name = false ∧
        (["b"] : List String).contains c.image_name = true))) ∧
    (((colmapSceneFromCams "p" [camA, camB] true (some { train := ["a"], test := ["b"] })
          [] [] fsToy).map
        (fun x => (x.1.train_cameras.length + x.1.test_cameras.length,
          x.1.train_cameras.any (fun c => x.1.test_cameras.any
            (fun d => d.image_name == c.image_name)))) =
      (colmapSceneFromCams "p" [camA, camB] true (some { train := ["a"], test := ["b"] })
          [] [] fsToy).map
        (fun _ => (([camA, camB] : List CameraInfo).length, false))) ∧
    ((toyDeskSceneFromCams "p" [camA, camB] true (some { train := ["a"], test := ["b"] })
          [] [] fsToy).map
        (fun x => (x.1.train_cameras.length + x.1.test_cameras.length,
          x.1.train_cameras.any (fun c => x.1.test_cameras.any
            (fun d => d.image_name == c.image_name)))) =
      (toyDeskSceneFromCams "p" [camA, camB] true (some { train := ["a"], test := ["b"] })
          [] [] fsToy).map
        (fun _ => (([camA, camB] : List CameraInfo).length, false)))) :=
  ⟨by
    intro c hc
    rcases List.mem_cons.mp hc with rfl | hc2
    · left
      constructor <;> simp [camA]
    · rcases List.mem_cons.mp hc2 with rfl | hc3
      · right
        constructor <;> simp [camB]
      · exact absurd hc3 (List.not_mem_nil c),
   split_partition_amended "p" [camA, camB] [camA, camB]
     { train := ["a"], test := ["b"] } { train := ["a"], test := ["b"] }
     [] [] [] [] fsToy fsToy "p"
     (by
       intro c hc
       rcases List.mem_cons.mp hc with rfl | hc2
       · left
         constructor <;> simp [camA]
       · rcases List.mem_cons.mp hc2 with rfl | hc3
         · right
           constructor <;> simp [camB]
         · exact absurd hc3 (List.not_mem_nil c))
     (by
       intro c hc
       rcases List.mem_cons.mp hc with rfl | hc2
       · left
         constructor <;> simp [camA]
       · rcases List.mem_cons.mp hc2 with rfl | hc3
         · right
           constructor <;> simp [camB]
         · exact absurd hc3 (List.not_mem_nil c))⟩

lemma c5names_eval : c5trainNames = ["a"] ∧ c5testNames = ["a"] := by
  constructor <;>
    simp [c5trainNames, c5testNames, c5res, toyDeskSceneFromCams, splitByLists, plyLoad,
      fetchPly, fsToy, camA, camB]

/-- Claim C5 counterexample: with cameras "a","b" and the split lists
train = ["a"], test = ["a"], every listed name matches an existing camera,
yet the assembled ToyDesk scene puts camera "a" on both sides — the
train/test imageName sets are not disjoint (the length equation even holds
by coincidence, 1 + 1 = 2). -/
theorem split_partition_counterexample :
    (∀ n ∈ (["a"] ++ ["a"] : List String), n ∈ ([camA, camB] : List CameraInfo).map
      (fun c => c.image_name)) ∧
    ¬ (c5trainNames.length + c5testNames.length = ([camA, camB] : List CameraInfo).length ∧
       ∀ n ∈ c5trainNames, n ∉ c5testNames) := by
  constructor
  · intro n hn
    simp at hn
    subst hn
    simp [camA, camB]
  · intro hcon
    have hd := hcon.2 "a"
    rcases c5names_eval with ⟨ht, hte⟩
    rw [ht, hte] at hd
    simp at hd


/-! Claim C6. -/

lemma readColmapCamera_badModel (q2r : (Fin 4 → ℝ) → Mat3) (xists : String → Bool)
    (folder : String) (intrs : ℕ → ColmapIntr) (dcf dce : Option String) (extr : ColmapExtr)
    (h1 : (intrs extr.camera_id).model ≠ "SIMPLE_PINHOLE")
    (h2 : (intrs extr.camera_id).model ≠ "PINHOLE") :
    readColmapCamera q2r xists folder intrs dcf dce extr =
      Except.error LoadErr.unsupportedModel := by
  unfold readColmapCamera
  simp only []
  rw [if_neg h1, if_neg h2]

lemma readColmapCameras_err (q2r : (Fin 4 → ℝ) → Mat3) (xists : String → Bool)
    (folder : String) (intrs : ℕ → ColmapIntr) (dcf dce : Option String)
    (l : List ColmapExtr)
    (h : ∃ e ∈ l, (intrs e.camera_id).model ≠ "SIMPLE_PINHOLE" ∧
                  (intrs e.camera_id).model ≠ "PINHOLE") :
    ∀ cs, readColmapCameras q2r xists folder intrs dcf dce l ≠ Except.ok cs := by
  induction l with
  | nil =>
    rcases h with ⟨e, he, _⟩
    exact absurd he (List.not_mem_nil e)
  | cons e rest ih =>
    intro cs hcs
    rw [readColmapCameras] at hcs
    rcases h with ⟨e2, he2, hbad⟩
    rcases List.mem_cons.mp he2 with rfl | hmem
    · rw [readColmapCamera_badModel q2r xists folder intrs dcf dce e2 hbad.1 hbad.2] at hcs
      simp at hcs
    · cases hec : readColmapCamera q2r xists folder intrs dcf dce e with
      | error err => rw [hec] at hcs; simp at hcs
      | ok c =>
        rw [hec] at hcs
        cases hrest : readColmapCameras q2r xists folder intrs dcf dce rest with
        | error err => rw [hrest] at hcs; simp at hcs
        | ok cs2 => exact ih ⟨e2, hmem, hbad⟩ cs2 hrest

/-- Claim C6: a structure-from-motion load containing any camera whose
intrinsics model is neither SIMPLE_PINHOLE nor PINHOLE aborts with an
error: no camera list and no SceneInfo is ever returned, and the offending
camera is never silently skipped. -/
theorem unsupported_model_aborts (q2r : (Fin 4 → ℝ) → Mat3) (xists : String → Bool)
    (path : String) (images : Option String) (ev : Bool) (sp : Option SplitSpec)
    (extrs : List ColmapExtr) (intrs : ℕ → ColmapIntr) (xyz rgb : List Vec3) (fs : FS)
    (h : ∃ e ∈ extrs, (intrs e.camera_id).model ≠ "SIMPLE_PINHOLE" ∧
                      (intrs e.camera_id).model ≠ "PINHOLE") :
    (readColmapSceneInfo q2r xists path images ev sp extrs intrs xyz rgb fs).isOk = false := by
  unfold readColmapSceneInfo
  simp only []
  cases hres : readColmapCameras q2r xists (pyJoin path (images.getD "images")) intrs
      (if xists (pyJoin path "depths_cam") then some (pyJoin path "depths_cam") else none)
      (if xists (pyJoin path "depths_est") then some (pyJoin path "depths_est") else none)
      extrs with
  | error e => simp [Except.isOk, Except.toBool]
  | ok cams =>
    exact absurd hres (readColmapCameras_err q2r xists
      (pyJoin path (images.getD "images")) intrs
      (if xists (pyJoin path "depths_cam") then some (pyJoin path "depths_cam") else none)
      (if xists (pyJoin path "depths_est") then some (pyJoin path "depths_est") else none)
      extrs h cams)

/-- Witness for unsupported_model_aborts: a single camera whose intrinsics
record carries the unsupported model SIMPLE_RADIAL. -/
theorem unsupported_model_aborts_witness :
    (∃ e ∈ ([extrCx] : List ColmapExtr),
      ((fun _ => intrBad) e.camera_id : ColmapIntr).model ≠ "SIMPLE_PINHOLE" ∧
      ((fun _ => intrBad) e.camera_id : ColmapIntr).model ≠ "PINHOLE") ∧
    (readColmapSceneInfo (fun _ => 1) (fun _ => true) "p" none false none
      [extrCx] (fun _ => intrBad) [] [] fsToy).isOk = false :=
  ⟨⟨extrCx, List.mem_cons_self extrCx [], by
      constructor <;> intro heq <;> simpa [intrBad] using heq⟩,
   unsupported_model_aborts (fun _ => 1) (fun _ => true) "p" none false none
     [extrCx] (fun _ => intrBad) [] [] fsToy
     ⟨extrCx, List.mem_cons_self extrCx [], by
        constructor <;> intro heq <;> simpa [intrBad] using heq⟩⟩

/-! Claim C9. -/

/-- Claim C9: when the point-cloud cache file already exists at the
canonical path, the load performs no synthesis and no write (the
filesystem and result are independent of the synthesized points) and
returns exactly the point cloud read from that file; a second load
starting from the filesystem left by any first load returns the very same
positions and colors with no further write; and the Colmap assembler's
point cloud and resulting filesystem are exactly those of the cache
step at its canonical path. -/
theorem ply_cache_readonly_and_idempotent (fs fs2 : FS) (pathc : String) (d : PlyFile)
    (xyz rgb xyz2 rgb2 : List Vec3) (p3 : String) (cams : List CameraInfo) (ev3 : Bool)
    (sp3 : Option SplitSpec) (xyz3 rgb3 : List Vec3) (fs3 : FS)
    (h : fs pathc = some d) :
    plyLoad fs pathc xyz rgb =
      (some { points := d.map (fun v => v.pos),
              colors := d.map (fun v => fun i => (v.rgb i : ℝ) / 255),
              normals := none }, fs, false) ∧
    (plyLoad (plyLoad fs2 pathc xyz rgb).2.1 pathc xyz2 rgb2 =
      ((plyLoad fs2 pathc xyz rgb).1, (plyLoad fs2 pathc xyz rgb).2.1, false)) ∧
    ((colmapSceneFromCams p3 cams ev3 sp3 xyz3 rgb3 fs3).map (fun x => (x.1.point_cloud, x.2)) =
      (colmapSceneFromCams p3 cams ev3 sp3 xyz3 rgb3 fs3).map
        (fun _ => ((plyLoad fs3 (pyJoin p3 "sparse/points3D.ply") xyz3 rgb3).1,
                   (plyLoad fs3 (pyJoin p3 "sparse/points3D.ply") xyz3 rgb3).2.1))) := by
  refine ⟨?_, ?_, ?_⟩
  · simp [plyLoad, fetchPly, h]
  · cases hfs : fs2 pathc with
    | none => simp [plyLoad, storePly, fetchPly, hfs]
    | some e => simp [plyLoad, storePly, fetchPly, hfs]
  · apply except_map_eq_map
    intro a ha
    rcases colmapSceneFromCams_ok p3 cams ev3 sp3 xyz3 rgb3 fs3 a ha with ⟨tt, _, _, hp⟩
    subst hp
    rfl

/-- Witness for ply_cache_readonly_and_idempotent: the filesystem fsC9
caching an empty ply at "c.ply". -/
theorem ply_cache_readonly_witness :
    fsC9 "c.ply" = some [] ∧
    (plyLoad fsC9 "c.ply" [] [] =
      (some { points := ([] : PlyFile).map (fun v => v.pos),
              colors := ([] : PlyFile).map (fun v => fun i => (v.rgb i : ℝ) / 255),
              normals := none }, fsC9, false) ∧
    (plyLoad (plyLoad fsC9 "c.ply" [] []).2.1 "c.ply" [] [] =
      ((plyLoad fsC9 "c.ply" [] []).1, (plyLoad fsC9 "c.ply" [] []).2.1, false)) ∧
    ((colmapSceneFromCams "p" [] false none [] [] fsC9).map (fun x => (x.1.point_cloud, x.2)) =
      (colmapSceneFromCams "p" [] false none [] [] fsC9).map
        (fun _ => ((plyLoad fsC9 (pyJoin "p" "sparse/points3D.ply") [] []).1,
                   (plyLoad fsC9 (pyJoin "p" "sparse/points3D.ply") [] []).2.1)))) :=
  ⟨by simp [fsC9],
   ply_cache_readonly_and_idempotent fsC9 fsC9 "c.ply" [] [] [] [] [] "p" [] false none [] [] fsC9
     (by simp [fsC9])⟩

end RAISE
